import Mathlib

/-!
A shallow embedding of the PT-104 driver wrapper (`PT104/__init__.py` of the
Pico_PT104 repository), together with theorems checking the specification's
claims about it.

Modelling conventions:
* Python floats and `time()` timestamps are modelled as rationals (`ℚ`); every
  division the code performs is exact at the inputs the theorems evaluate, so
  no floating-point rounding is being hidden.
* The `usbpt104` shared library is the abstract hardware port.  Each embedded
  operation takes, as explicit arguments, the responses the port would give to
  the hardware calls it issues during that one invocation, and returns the
  list of hardware calls it issued (`Event`s), so that claims about "which
  hardware calls happen" are statable.  For `UsbPt104GetValue` the response is
  a pair `(status, out)`: the returned status code together with the content
  the call leaves in the `c_long` buffer that was passed to it by reference.
* The mutable `PT104` object becomes explicit state passing; a Python
  `KeyError` from a missing dictionary key and the `raise` statements of
  `connect` become `Except PyErr`.
-/

/-- The `Channels` enumeration (`CHANNEL_1 = 1` … `CHANNEL_8 = 8`). -/
inductive Channels
  | CHANNEL_1 | CHANNEL_2 | CHANNEL_3 | CHANNEL_4
  | CHANNEL_5 | CHANNEL_6 | CHANNEL_7 | CHANNEL_8
deriving DecidableEq, Repr

/-- The integer wire codes of `Channels`. -/
def Channels.code : Channels → ℕ
  | .CHANNEL_1 => 1
  | .CHANNEL_2 => 2
  | .CHANNEL_3 => 3
  | .CHANNEL_4 => 4
  | .CHANNEL_5 => 5
  | .CHANNEL_6 => 6
  | .CHANNEL_7 => 7
  | .CHANNEL_8 => 8

/-- `MAX_CHANNELS = CHANNEL_8`. -/
def Channels.MAX_CHANNELS : Channels := .CHANNEL_8

/-- The `Wires` enumeration (`WIRES_2 = 2`, `WIRES_3 = 3`, `WIRES_4 = 4`). -/
inductive Wires
  | WIRES_2 | WIRES_3 | WIRES_4
deriving DecidableEq, Repr

/-- The integer wire codes of `Wires`. -/
def Wires.code : Wires → ℕ
  | .WIRES_2 => 2
  | .WIRES_3 => 3
  | .WIRES_4 => 4

/-- `MIN_WIRES = WIRES_2`. -/
def Wires.MIN_WIRES : Wires := .WIRES_2

/-- `MAX_WIRES = WIRES_4`. -/
def Wires.MAX_WIRES : Wires := .WIRES_4

/-- The `DataTypes` enumeration (`OFF = 0` … `SINGLE_ENDED_TO_2500MV = 8`). -/
inductive DataTypes
  | OFF
  | PT100
  | PT1000
  | RESISTANCE_TO_375R
  | RESISTANCE_TO_10K
  | DIFFERENTIAL_TO_115MV
  | DIFFERENTIAL_TO_2500MV
  | SINGLE_ENDED_TO_115MV
  | SINGLE_ENDED_TO_2500MV
deriving DecidableEq, Repr

/-- The integer wire codes of `DataTypes`. -/
def DataTypes.code : DataTypes → ℕ
  | .OFF => 0
  | .PT100 => 1
  | .PT1000 => 2
  | .RESISTANCE_TO_375R => 3
  | .RESISTANCE_TO_10K => 4
  | .DIFFERENTIAL_TO_115MV => 5
  | .DIFFERENTIAL_TO_2500MV => 6
  | .SINGLE_ENDED_TO_115MV => 7
  | .SINGLE_ENDED_TO_2500MV => 8

/-- The `CommunicationType` enumeration. -/
inductive CommunicationType
  | CT_USB | CT_ETHERNET | CT_ALL
deriving DecidableEq, Repr

/-- The integer wire codes of `CommunicationType`. -/
def CommunicationType.code : CommunicationType → ℕ
  | .CT_USB => 0x00000001
  | .CT_ETHERNET => 0x00000002
  | .CT_ALL => 0xFFFFFFFF

/-- The `PicoInfo` enumeration of unit-info categories. -/
inductive PicoInfo
  | PICO_DRIVER_VERSION
  | PICO_USB_VERSION
  | PICO_HARDWARE_VERSION
  | PICO_VARIANT_INFO
  | PICO_BATCH_AND_SERIAL
  | PICO_CAL_DATE
  | PICO_KERNEL_DRIVER_VERSION
deriving DecidableEq, Repr

/-- The integer wire codes of `PicoInfo`. -/
def PicoInfo.code : PicoInfo → ℕ
  | .PICO_DRIVER_VERSION => 0
  | .PICO_USB_VERSION => 1
  | .PICO_HARDWARE_VERSION => 2
  | .PICO_VARIANT_INFO => 3
  | .PICO_BATCH_AND_SERIAL => 4
  | .PICO_CAL_DATE => 5
  | .PICO_KERNEL_DRIVER_VERSION => 6

/-- One per-channel record of `self.channels`:
`{'data_type': …, 'nb_wires': …, 'low_pass_filter': …, 'value': c_long, 'last_query': time()}`.
The `c_long` buffer is modelled as `ℤ` and the timestamp as `ℚ`. -/
structure ChannelConf where
  data_type : DataTypes
  nb_wires : Wires
  low_pass_filter : Bool
  value : ℤ
  last_query : ℚ
deriving DecidableEq, Repr

/-- The `self.channels` dictionary: an association list keyed by `Channels`. -/
abbrev ChannelStore := List (Channels × ChannelConf)

/-- Python dictionary lookup `self.channels[channel]`; `none` is a `KeyError`. -/
def lookupChannel (chans : ChannelStore) (ch : Channels) : Option ChannelConf :=
  (chans.find? fun p => decide (p.1 = ch)).map Prod.snd

/-- In-place mutation of the entry at key `ch` (every entry with that key is
rewritten; the construction only ever builds stores with distinct keys). -/
def updateChannel (chans : ChannelStore) (ch : Channels) (conf : ChannelConf) : ChannelStore :=
  chans.map fun p => if p.1 = ch then (ch, conf) else p

/-- The state of a `PT104` object: the channel dictionary and `self._handle`
(`none` models Python `None`, i.e. a disconnected session). -/
structure PT104 where
  channels : ChannelStore
  handle : Option ℤ
deriving DecidableEq, Repr

/-- The Python exceptions the embedded operations can raise. -/
inductive PyErr
  | valueError | notImplementedError | keyError
deriving DecidableEq, Repr

/-- The hardware/guard calls an operation performs, in order. -/
inductive Event
  | waitGuard (ch : Channels)
  | hwOpenUnit
  | hwCloseUnit (h : ℤ)
  | hwGetUnitInfo (h : ℤ) (cat : PicoInfo)
  | hwSetChannel (h : ℤ) (ch : Channels) (dt : DataTypes) (w : Wires)
  | hwGetValue (h : ℤ) (ch : Channels) (lpf : Bool)
  | hwSetMains (h : Option ℤ) (code : ℕ)
deriving DecidableEq, Repr

/-- `PT104.__init__`: channels 1–4, each `OFF`, 4-wire, filter off, value 0,
`last_query = time()` (the construction time `t0`); `self._handle = None`. -/
def PT104.init (t0 : ℚ) : PT104 :=
  { channels :=
      [(.CHANNEL_1, ⟨.OFF, .WIRES_4, false, 0, t0⟩),
       (.CHANNEL_2, ⟨.OFF, .WIRES_4, false, 0, t0⟩),
       (.CHANNEL_3, ⟨.OFF, .WIRES_4, false, 0, t0⟩),
       (.CHANNEL_4, ⟨.OFF, .WIRES_4, false, 0, t0⟩)],
    handle := none }

/-- The `is_connected` property: `self._handle is not None`. -/
def is_connected (st : PT104) : Bool := st.handle.isSome

/-- The `active_channel_count` property: iterate `self.channels`, skip entries
whose `data_type` is `OFF`, count the rest. -/
def active_channel_count (st : PT104) : ℕ :=
  st.channels.countP fun p => decide (p.2.data_type ≠ DataTypes.OFF)

/-- `disconnect`: `False` if not connected; otherwise close the unit, clear
the handle, return `True`. -/
def disconnect (st : PT104) : Bool × PT104 × List Event :=
  match st.handle with
  | none => (false, st, [])
  | some h => (true, { st with handle := none }, [Event.hwCloseUnit h])

/-- What `set_channel` returns: the Python literal `False` (config-only
update while disconnected) or the status code of `UsbPt104SetChannel`. -/
inductive SetChannelResult
  | pyFalse | status (s : ℤ)
deriving DecidableEq, Repr

/-- `set_channel`: writes `data_type`, `nb_wires`, `low_pass_filter` into
`self.channels[channel]` (a `KeyError` if the key is absent), then returns
`False` if disconnected, otherwise issues `UsbPt104SetChannel` and returns its
status `resp`. -/
def set_channel (st : PT104) (resp : ℤ) (channel : Channels) (data_type : DataTypes)
    (nb_wires : Wires) (low_pass_filter : Bool) :
    Except PyErr (SetChannelResult × PT104 × List Event) :=
  match lookupChannel st.channels channel with
  | none => .error .keyError
  | some conf =>
    let st' : PT104 := { st with
      channels := updateChannel st.channels channel
        { conf with data_type := data_type, nb_wires := nb_wires,
                    low_pass_filter := low_pass_filter } }
    match st.handle with
    | none => .ok (.pyFalse, st', [])
    | some h => .ok (.status resp, st', [Event.hwSetChannel h channel data_type nb_wires])

/-- The loop of `set_channels`: for each item of the iterated dictionary call
`self.set_channel(channel, conf['data_type'], conf['nb_wires'])` (so
`low_pass_filter` takes its default `False`), threading the mutated state.
The hardware statuses are discarded, so the port response is fixed at `0`. -/
def set_channels_go : PT104 → List Event → ChannelStore → Except PyErr (PT104 × List Event)
  | st, evs, [] => .ok (st, evs)
  | st, evs, p :: ps =>
    match set_channel st 0 p.1 p.2.data_type p.2.nb_wires false with
    | .error e => .error e
    | .ok (_, st', ev) => set_channels_go st' (evs ++ ev) ps

/-- `set_channels`: push every stored channel configuration to the device. -/
def set_channels (st : PT104) : Except PyErr (PT104 × List Event) :=
  set_channels_go st [] st.channels

/-- The seven `PicoInfo` categories `get_unit_info` queries, in order. -/
def picoInfoCategories : List PicoInfo :=
  [.PICO_DRIVER_VERSION, .PICO_USB_VERSION, .PICO_HARDWARE_VERSION, .PICO_VARIANT_INFO,
   .PICO_BATCH_AND_SERIAL, .PICO_CAL_DATE, .PICO_KERNEL_DRIVER_VERSION]

/-- The seven `UsbPt104GetUnitInfo` calls issued by `get_unit_info`. -/
def get_unit_info_events (h : ℤ) : List Event :=
  picoInfoCategories.map (Event.hwGetUnitInfo h)

/-- What `connect` returns on the non-raising paths: the Python literal `True`
or the non-zero status of a failed `UsbPt104OpenUnit`. -/
inductive ConnectResult
  | pyTrue | status (s : ℤ)
deriving DecidableEq, Repr

/-- `connect`: raises on `CT_ALL` (ValueError) and `CT_ETHERNET`
(NotImplementedError); disconnects first if already connected; makes a fresh
`c_short()` handle (value 0) and opens the unit.  `openResp = (status, h)`
models `UsbPt104OpenUnit` returning `status` after writing `h` through the
by-reference handle.  On status 0 it fetches the unit info, pushes all channel
configurations and returns `True`; otherwise it clears the handle and returns
the status. -/
def connect (st : PT104) (openResp : ℤ × ℤ) (interface : CommunicationType) :
    Except PyErr (ConnectResult × PT104 × List Event) :=
  if interface = CommunicationType.CT_ALL then .error .valueError
  else if interface = CommunicationType.CT_ETHERNET then .error .notImplementedError
  else
    let d := if st.handle.isSome then disconnect st else (false, st, [])
    let st2 : PT104 := { d.2.1 with handle := some 0 }
    let ev2 : List Event := d.2.2 ++ [Event.hwOpenUnit]
    if openResp.1 = 0 then
      let st3 : PT104 := { st2 with handle := some openResp.2 }
      match set_channels st3 with
      | .error e => .error e
      | .ok (st4, ev4) =>
        .ok (ConnectResult.pyTrue, st4, ev2 ++ get_unit_info_events openResp.2 ++ ev4)
    else
      .ok (ConnectResult.status openResp.1, { st2 with handle := none }, ev2)

/-- The local `conversion_time = self.active_channel_count * 0.75` of
`_wait_for_conversion`. -/
def conversion_time (st : PT104) : ℚ :=
  (active_channel_count st : ℚ) * 0.75

/-- The spin loop `while last_query + conversion_time > time(): pass`, run
against the stream of clock readings `times`; it exits at the first reading
that is not strictly below the deadline and returns that reading (`none` if
the stream is exhausted while still spinning). -/
def waitLoop (deadline : ℚ) : List ℚ → Option ℚ
  | [] => none
  | t :: ts => if deadline > t then waitLoop deadline ts else some t

/-- `_wait_for_conversion`: computes the conversion time from the current
active-channel count, reads `self.channels[channel]['last_query']` (a
`KeyError` if the key is absent) and spins until the deadline passes. -/
def wait_for_conversion (st : PT104) (channel : Channels) (times : List ℚ) :
    Except PyErr (Option ℚ) :=
  match lookupChannel st.channels channel with
  | none => .error .keyError
  | some conf => .ok (waitLoop (conf.last_query + conversion_time st) times)

/-- `scale_value`: the if-chain over `self.channels[channel]['data_type']`.
Falling off the end of the Python function returns `None`, i.e. `.ok none`. -/
def scale_value (st : PT104) (value : ℚ) (channel : Channels) :
    Except PyErr (Option ℚ) :=
  match lookupChannel st.channels channel with
  | none => .error .keyError
  | some conf =>
    if conf.data_type = DataTypes.PT100 ∨ conf.data_type = DataTypes.PT1000 then
      .ok (some (value / 10 ^ 3))
    else if conf.data_type = DataTypes.RESISTANCE_TO_375R then
      .ok (some (value / 10 ^ 3))
    else if conf.data_type = DataTypes.RESISTANCE_TO_10K then
      .ok (some value)
    else if conf.data_type = DataTypes.DIFFERENTIAL_TO_115MV ∨
        conf.data_type = DataTypes.SINGLE_ENDED_TO_115MV then
      .ok (some (value / 10 ^ 9))
    else if conf.data_type = DataTypes.DIFFERENTIAL_TO_2500MV ∨
        conf.data_type = DataTypes.SINGLE_ENDED_TO_2500MV then
      .ok (some (value / 10 ^ 8))
    else
      .ok none

/-- `get_value`: returns `None` immediately if disconnected; otherwise runs
the conversion guard, issues `UsbPt104GetValue` with the channel's `c_long`
buffer passed by reference (`resp = (status, out)`: the status code and the
buffer content the call leaves behind), sets `last_query` to the current time
`now`, and returns the raw or scaled buffer content on status 0, else `None`.
A missing channel key raises `KeyError` inside the guard. -/
def get_value (st : PT104) (resp : ℤ × ℤ) (channel : Channels) (raw_value : Bool)
    (now : ℚ) : Except PyErr (Option ℚ × PT104 × List Event) :=
  match st.handle with
  | none => .ok (none, st, [])
  | some h =>
    match lookupChannel st.channels channel with
    | none => .error .keyError
    | some conf =>
      let st1 : PT104 := { st with
        channels := updateChannel st.channels channel
          { conf with value := resp.2, last_query := now } }
      let evs := [Event.waitGuard channel, Event.hwGetValue h channel conf.low_pass_filter]
      if resp.1 = 0 then
        if raw_value then .ok (some (resp.2 : ℚ), st1, evs)
        else
          match scale_value st1 (resp.2 : ℚ) channel with
          | .error e => .error e
          | .ok v => .ok (v, st1, evs)
      else
        .ok (none, st1, evs)

/-- `set_mains`: converts the boolean to a `c_ushort` code, issues
`UsbPt104SetMains` with whatever `self._handle` currently is (there is no
connection guard), discards the status `resp` and returns `True`. -/
def set_mains (st : PT104) (resp : ℤ) (sixty_hertz : Bool) : Bool × List Event :=
  let code : ℕ := if sixty_hertz then 1 else 0
  (true, [Event.hwSetMains st.handle code])

/-! ## Helper lemmas -/

theorem lookupChannel_updateChannel_self (chans : ChannelStore) (ch : Channels)
    (conf newConf : ChannelConf) (hlk : lookupChannel chans ch = some conf) :
    lookupChannel (updateChannel chans ch newConf) ch = some newConf := by
  induction chans with
  | nil => simp [lookupChannel] at hlk
  | cons p ps ih =>
    by_cases hp : p.1 = ch
    · simp [lookupChannel, updateChannel, hp]
    · simp only [lookupChannel, updateChannel, List.map_cons, List.find?] at hlk ⊢
      simp only [hp, if_false, decide_eq_true_eq, hp, decide_False] at hlk ⊢
      exact ih hlk

theorem updateChannel_map_fst (chans : ChannelStore) (ch : Channels) (conf : ChannelConf) :
    (updateChannel chans ch conf).map Prod.fst = chans.map Prod.fst := by
  induction chans with
  | nil => rfl
  | cons p ps ih =>
    by_cases hp : p.1 = ch <;> simp [updateChannel, hp] at ih ⊢ <;> exact ih

theorem lookupChannel_isSome_of_mem (chans : ChannelStore) (ch : Channels)
    (hmem : ch ∈ chans.map Prod.fst) : ∃ conf, lookupChannel chans ch = some conf := by
  induction chans with
  | nil => simp at hmem
  | cons p ps ih =>
    by_cases hp : p.1 = ch
    · exact ⟨p.2, by simp [lookupChannel, hp]⟩
    · have hmem' : ch ∈ ps.map Prod.fst := by
        rw [List.map_cons, List.mem_cons] at hmem
        exact hmem.resolve_left fun h => hp h.symm
      obtain ⟨conf, hconf⟩ := ih hmem'
      refine ⟨conf, ?_⟩
      simp only [lookupChannel, List.find?, hp, decide_False] at hconf ⊢
      exact hconf

/-! ## C1: the scaling table -/

/-- C1: for every raw code and every channel whose configured data type is not
`OFF`, `scale_value` is the linear function of the spec's table: PT100 and
PT1000 give raw/1000, RESISTANCE_TO_375R gives raw/1000, RESISTANCE_TO_10K
gives raw unchanged, the 115 mV types give raw/1e9 and the 2500 mV types give
raw/1e8. -/
theorem C1_scale_value_linear (st : PT104) (ch : Channels) (conf : ChannelConf) (v : ℚ)
    (hlk : lookupChannel st.channels ch = some conf) :
    (conf.data_type = DataTypes.PT100 → scale_value st v ch = .ok (some (v / 1000))) ∧
    (conf.data_type = DataTypes.PT1000 → scale_value st v ch = .ok (some (v / 1000))) ∧
    (conf.data_type = DataTypes.RESISTANCE_TO_375R →
      scale_value st v ch = .ok (some (v / 1000))) ∧
    (conf.data_type = DataTypes.RESISTANCE_TO_10K → scale_value st v ch = .ok (some v)) ∧
    (conf.data_type = DataTypes.DIFFERENTIAL_TO_115MV →
      scale_value st v ch = .ok (some (v / 1000000000))) ∧
    (conf.data_type = DataTypes.SINGLE_ENDED_TO_115MV →
      scale_value st v ch = .ok (some (v / 1000000000))) ∧
    (conf.data_type = DataTypes.DIFFERENTIAL_TO_2500MV →
      scale_value st v ch = .ok (some (v / 100000000))) ∧
    (conf.data_type = DataTypes.SINGLE_ENDED_TO_2500MV →
      scale_value st v ch = .ok (some (v / 100000000))) := by
  refine ⟨?_, ?_, ?_, ?_, ?_, ?_, ?_, ?_⟩ <;> intro hdt <;>
    simp [scale_value, hlk, hdt] <;> norm_num

/-- A channel record configured for PT100 (used by concrete instances). -/
def confPT100W : ChannelConf := ⟨DataTypes.PT100, .WIRES_4, false, 0, 0⟩

/-- A channel record configured for DIFFERENTIAL_TO_2500MV. -/
def conf2500W : ChannelConf := ⟨DataTypes.DIFFERENTIAL_TO_2500MV, .WIRES_4, false, 0, 0⟩

/-- A concrete manager state with channel 1 on PT100 and channel 2 on
DIFFERENTIAL_TO_2500MV. -/
def stScaleW : PT104 := ⟨[(.CHANNEL_1, confPT100W), (.CHANNEL_2, conf2500W)], none⟩

/-- C1 witness: `scale(100000, PT100) = 100.0` and
`scale(250000000, DIFFERENTIAL_TO_2500MV) = 2.5`, via `C1_scale_value_linear`
at concrete inputs. -/
theorem C1_scale_value_linear_witness :
    lookupChannel stScaleW.channels .CHANNEL_1 = some confPT100W ∧
    lookupChannel stScaleW.channels .CHANNEL_2 = some conf2500W ∧
    scale_value stScaleW 100000 .CHANNEL_1 = .ok (some 100) ∧
    scale_value stScaleW 250000000 .CHANNEL_2 = .ok (some 2.5) := by
  refine ⟨rfl, rfl, ?_, ?_⟩
  · rw [(C1_scale_value_linear stScaleW .CHANNEL_1 confPT100W 100000 rfl).1 rfl]
    norm_num
  · rw [(C1_scale_value_linear stScaleW .CHANNEL_2 conf2500W 250000000
      rfl).2.2.2.2.2.2.1 rfl]
    norm_num

/-! ## C4: unmapped data types in the scaling engine -/

/-- C4 counterexample: the claim says a data type outside the eight mapped
non-`OFF` types (i.e. `OFF`) makes the scaling engine fail loudly.  It does
not: on a freshly constructed manager (whose channel 1 is `OFF`) the Python
function falls off the end of its if-chain and silently returns `None`
(`.ok none`), raising nothing. -/
theorem C4_scale_value_off_counterexample :
    scale_value (PT104.init 0) 5 Channels.CHANNEL_1 = .ok none := by
  rfl

/-- C4 amended: for every channel whose configured data type is `OFF` (the
only member of the enumeration outside the eight mapped types), `scale_value`
silently returns `None` (`.ok none`) — it does not signal an error. -/
theorem C4_scale_value_off_silent (st : PT104) (ch : Channels) (conf : ChannelConf) (v : ℚ)
    (hlk : lookupChannel st.channels ch = some conf)
    (hdt : conf.data_type = DataTypes.OFF) :
    scale_value st v ch = .ok none := by
  simp [scale_value, hlk, hdt]

/-- C4 witness: the amended behavior at a concrete input. -/
theorem C4_scale_value_off_silent_witness :
    lookupChannel (PT104.init 0).channels Channels.CHANNEL_1 =
      some ⟨DataTypes.OFF, .WIRES_4, false, 0, 0⟩ ∧
    scale_value (PT104.init 0) 7 Channels.CHANNEL_1 = .ok none :=
  ⟨rfl, C4_scale_value_off_silent (PT104.init 0) Channels.CHANNEL_1
    ⟨DataTypes.OFF, .WIRES_4, false, 0, 0⟩ 7 rfl rfl⟩

/-! ## C5: `get_value` while disconnected -/

/-- C5: on a disconnected session (`self._handle is None`), `get_value`
returns `None` immediately: no hardware call, no conversion-timing guard, and
the state — every channel's configuration, stored raw value and
`last_query` — is returned unchanged. -/
theorem C5_get_value_disconnected (st : PT104) (resp : ℤ × ℤ) (ch : Channels)
    (raw_value : Bool) (now : ℚ) (hdis : st.handle = none) :
    get_value st resp ch raw_value now = .ok (none, st, []) := by
  simp [get_value, hdis]

/-- C5 witness: a freshly constructed manager is disconnected, and
`get_value` leaves it untouched. -/
theorem C5_get_value_disconnected_witness :
    (PT104.init 3).handle = none ∧
    get_value (PT104.init 3) (0, 99) Channels.CHANNEL_2 false 11 =
      .ok (none, PT104.init 3, []) :=
  ⟨rfl, C5_get_value_disconnected (PT104.init 3) (0, 99) Channels.CHANNEL_2 false 11 rfl⟩

/-! ## C10: `set_mains` -/

/-- C10: for every state (connected or not) and every boolean, `set_mains`
returns `True`; it issues the `UsbPt104SetMains` hardware call with whatever
`self._handle` currently holds (even `None`), has no not-connected guard, and
discards the hardware status code (the `resp` argument does not occur in the
result). -/
theorem C10_set_mains_unguarded (st : PT104) (resp : ℤ) (sixty_hertz : Bool) :
    set_mains st resp sixty_hertz =
      (true, [Event.hwSetMains st.handle (if sixty_hertz then 1 else 0)]) := by
  rfl

/-! ## C2: the conversion-timing guard -/

theorem waitLoop_exit_ge (deadline t : ℚ) :
    ∀ times : List ℚ, waitLoop deadline times = some t → deadline ≤ t := by
  intro times
  induction times with
  | nil => intro h; simp [waitLoop] at h
  | cons a ts ih =>
    intro h
    by_cases hc : deadline > a
    · rw [waitLoop, if_pos hc] at h
      exact ih h
    · rw [waitLoop, if_neg hc] at h
      obtain rfl : a = t := by simpa using h
      exact le_of_not_lt hc

/-- C2: whenever `_wait_for_conversion` returns, the clock reading `t` at
which its spin loop exits satisfies `t ≥ last_query + active_channel_count *
0.75` (elapsed time since the channel's `last_query` is at least the
conversion time); the required wait is strictly monotonic in the
active-channel count, and equals 0.75 s for one active channel and 1.5 s for
two. -/
theorem C2_wait_for_conversion_deadline (st stMore : PT104) (ch : Channels)
    (conf : ChannelConf) (times : List ℚ) (t : ℚ)
    (hlk : lookupChannel st.channels ch = some conf)
    (hexit : wait_for_conversion st ch times = .ok (some t)) :
    conf.last_query + (active_channel_count st : ℚ) * 0.75 ≤ t ∧
    (active_channel_count st < active_channel_count stMore →
      conversion_time st < conversion_time stMore) ∧
    (active_channel_count st = 1 → conversion_time st = 0.75) ∧
    (active_channel_count st = 2 → conversion_time st = 1.5) := by
  refine ⟨?_, ?_, ?_, ?_⟩
  · rw [wait_for_conversion, hlk] at hexit
    have h2 : waitLoop (conf.last_query + conversion_time st) times = some t := by
      simpa using hexit
    simpa [conversion_time] using waitLoop_exit_ge _ t times h2
  · intro hlt
    rw [conversion_time, conversion_time]
    exact mul_lt_mul_of_pos_right (by exact_mod_cast hlt) (by norm_num)
  · intro h1
    rw [conversion_time, h1]; norm_num
  · intro h2
    rw [conversion_time, h2]; norm_num

/-- A channel record with an active (PT100) data type and `last_query = 0`. -/
def confActiveW : ChannelConf := ⟨DataTypes.PT100, .WIRES_4, false, 0, 0⟩

/-- A connected manager with two active channels. -/
def stWait2 : PT104 :=
  ⟨[(.CHANNEL_1, confActiveW), (.CHANNEL_2, confActiveW)], some 1⟩

/-- A connected manager with four active channels. -/
def stWait4 : PT104 :=
  ⟨[(.CHANNEL_1, confActiveW), (.CHANNEL_2, confActiveW),
    (.CHANNEL_3, confActiveW), (.CHANNEL_4, confActiveW)], some 1⟩

/-- C2 witness: with two active channels and `last_query = 0` the guard's
loop spins at clock reading 1 (1 < 1.5) and exits at reading 2; the deadline
facts are obtained from `C2_wait_for_conversion_deadline` at this input. -/
theorem C2_wait_for_conversion_deadline_witness :
    (lookupChannel stWait2.channels .CHANNEL_1 = some confActiveW ∧
      wait_for_conversion stWait2 .CHANNEL_1 [1, 2] = .ok (some 2)) ∧
    (confActiveW.last_query + (active_channel_count stWait2 : ℚ) * 0.75 ≤ 2 ∧
      (active_channel_count stWait2 < active_channel_count stWait4 →
        conversion_time stWait2 < conversion_time stWait4) ∧
      (active_channel_count stWait2 = 1 → conversion_time stWait2 = 0.75) ∧
      (active_channel_count stWait2 = 2 → conversion_time stWait2 = 1.5)) := by
  have hc2 : active_channel_count stWait2 = 2 := rfl
  have hct : conversion_time stWait2 = 1.5 := by
    rw [conversion_time, hc2]; norm_num
  have hlk : lookupChannel stWait2.channels .CHANNEL_1 = some confActiveW := rfl
  have hexit : wait_for_conversion stWait2 .CHANNEL_1 [1, 2] = .ok (some 2) := by
    have h1 : confActiveW.last_query + conversion_time stWait2 > 1 := by
      rw [hct]; norm_num [confActiveW]
    have h2 : ¬confActiveW.last_query + conversion_time stWait2 > 2 := by
      rw [hct]; norm_num [confActiveW]
    have hred : wait_for_conversion stWait2 .CHANNEL_1 [1, 2] =
        .ok (waitLoop (confActiveW.last_query + conversion_time stWait2) [1, 2]) := rfl
    rw [hred]
    simp only [waitLoop]
    rw [if_pos h1, if_neg h2]
  exact ⟨⟨hlk, hexit⟩,
    C2_wait_for_conversion_deadline stWait2 stWait4 .CHANNEL_1 confActiveW [1, 2] 2 hlk hexit⟩

/-! ## C3: `get_value` and hardware read failure -/

theorem scale_value_ok (st : PT104) (v : ℚ) (ch : Channels) (conf : ChannelConf)
    (hlk : lookupChannel st.channels ch = some conf) :
    ∃ r, scale_value st v ch = .ok r := by
  simp only [scale_value, hlk]
  split_ifs <;> exact ⟨_, rfl⟩

/-- C3 counterexample: the claim says the stored raw value is updated only on
hardware success.  But `get_value` passes the channel's `c_long` buffer to the
hardware by reference on every read; nothing gates the buffer on the status.
Concretely: a read whose port response is status 1 (failure) with 42 left in
the buffer still changes the stored raw value from 0 to 42 — while correctly
returning `None` and advancing `last_query` to the current time 10. -/
theorem C3_get_value_counterexample :
    get_value (⟨[(.CHANNEL_1, ⟨DataTypes.PT100, .WIRES_4, false, 0, 0⟩)], some 1⟩ : PT104)
        (1, 42) Channels.CHANNEL_1 false 10 =
      .ok (none,
        ⟨[(.CHANNEL_1, ⟨DataTypes.PT100, .WIRES_4, false, 42, 10⟩)], some 1⟩,
        [Event.waitGuard .CHANNEL_1, Event.hwGetValue 1 .CHANNEL_1 false]) := by
  rfl

/-- C3 amended: on every `get_value` call that reaches the hardware (session
connected, channel present), the channel's `last_query` is set to the current
time and its `value` buffer ends up holding whatever the hardware call wrote,
in success and in failure alike; the *returned* value is `None` whenever the
status is non-zero (absent, not an exception). -/
theorem C3_get_value_failure_behavior (st : PT104) (h : ℤ) (ch : Channels)
    (conf : ChannelConf) (status out : ℤ) (now : ℚ) (raw_value : Bool)
    (hh : st.handle = some h) (hlk : lookupChannel st.channels ch = some conf) :
    ∃ res,
      get_value st (status, out) ch raw_value now =
        .ok (res,
          { st with
              channels := updateChannel st.channels ch
                ({ conf with value := out, last_query := now }) },
          [Event.waitGuard ch, Event.hwGetValue h ch conf.low_pass_filter]) ∧
      (status ≠ 0 → res = none) ∧
      lookupChannel (updateChannel st.channels ch
          { conf with value := out, last_query := now }) ch =
        some { conf with value := out, last_query := now } := by
  have hlk' := lookupChannel_updateChannel_self st.channels ch conf
    { conf with value := out, last_query := now } hlk
  by_cases hs : status = 0
  · subst hs
    by_cases hr : raw_value
    · exact ⟨some (out : ℚ), by simp [get_value, hh, hlk, hr], by simp, hlk'⟩
    · obtain ⟨r, hrok⟩ := scale_value_ok
        { st with
            channels := updateChannel st.channels ch
              ({ conf with value := out, last_query := now }) }
        (out : ℚ) ch { conf with value := out, last_query := now } hlk'
      rw [hh] at hrok
      exact ⟨r, by simp [get_value, hh, hlk, hr, hrok], by simp, hlk'⟩
  · exact ⟨none, by simp [get_value, hh, hlk, hs], fun _ => rfl, hlk'⟩

/-- C3 witness: the amended behavior at a concrete input — two pieces of
state change on a failing read: `last_query` becomes the current time and the
buffer holds the hardware's write. -/
theorem C3_get_value_failure_behavior_witness :
    ((stWait2.handle = some 1 ∧
        lookupChannel stWait2.channels .CHANNEL_2 = some confActiveW) ∧
      ((5 : ℤ) ≠ 0)) ∧
    (∃ res,
      get_value stWait2 (5, 77) Channels.CHANNEL_2 false 9 =
        .ok (res,
          { stWait2 with
              channels := updateChannel stWait2.channels .CHANNEL_2
                ({ confActiveW with value := 77, last_query := 9 }) },
          [Event.waitGuard .CHANNEL_2, Event.hwGetValue 1 .CHANNEL_2
            confActiveW.low_pass_filter]) ∧
      ((5 : ℤ) ≠ 0 → res = none) ∧
      lookupChannel (updateChannel stWait2.channels .CHANNEL_2
          { confActiveW with value := 77, last_query := 9 }) .CHANNEL_2 =
        some { confActiveW with value := 77, last_query := 9 }) :=
  ⟨⟨⟨rfl, rfl⟩, by decide⟩,
    C3_get_value_failure_behavior stWait2 1 .CHANNEL_2 confActiveW 5 77 9 false rfl rfl⟩

/-! ## C6: `set_channel` updates the store unconditionally -/

/-- C6: for every present channel and every data type, wire count and filter
flag, `set_channel` updates the in-memory store unconditionally — afterwards
the stored configuration is exactly the arguments of the call (other fields
untouched) — in both connection states; it returns the Python literal `False`
exactly when the session is disconnected, and the `UsbPt104SetChannel`
hardware call is issued exactly when connected (returning its status). -/
theorem C6_set_channel_roundtrip (st : PT104) (resp : ℤ) (ch : Channels)
    (dt : DataTypes) (w : Wires) (lpf : Bool) (conf : ChannelConf)
    (hlk : lookupChannel st.channels ch = some conf) :
    ∃ r st' ev, set_channel st resp ch dt w lpf = .ok (r, st', ev) ∧
      st'.channels = updateChannel st.channels ch
        ({ conf with data_type := dt, nb_wires := w, low_pass_filter := lpf }) ∧
      lookupChannel st'.channels ch =
        some { conf with data_type := dt, nb_wires := w, low_pass_filter := lpf } ∧
      st'.handle = st.handle ∧
      ((r = SetChannelResult.pyFalse) ↔ st.handle = none) ∧
      (st.handle = none → ev = []) ∧
      (∀ hh, st.handle = some hh →
        ev = [Event.hwSetChannel hh ch dt w] ∧ r = SetChannelResult.status resp) := by
  have hlk' := lookupChannel_updateChannel_self st.channels ch conf
    { conf with data_type := dt, nb_wires := w, low_pass_filter := lpf } hlk
  cases hh : st.handle with
  | none =>
    refine ⟨.pyFalse,
      { st with
          channels := updateChannel st.channels ch
            ({ conf with data_type := dt, nb_wires := w, low_pass_filter := lpf }) },
      [], ?_, rfl, hlk', hh, by simp, fun _ => rfl, fun hh' habs => absurd habs (by simp)⟩
    simp [set_channel, hlk, hh]
  | some hval =>
    refine ⟨.status resp,
      { st with
          channels := updateChannel st.channels ch
            ({ conf with data_type := dt, nb_wires := w, low_pass_filter := lpf }) },
      [Event.hwSetChannel hval ch dt w], ?_, rfl, hlk', hh, by simp,
      fun habs => absurd habs (by simp), ?_⟩
    · simp [set_channel, hlk, hh]
    · intro hh' heq
      obtain rfl : hval = hh' := Option.some.inj heq
      exact ⟨rfl, rfl⟩

/-- C6 witness: configuring channel 3 of a freshly constructed (disconnected)
manager. -/
theorem C6_set_channel_roundtrip_witness :
    lookupChannel (PT104.init 0).channels Channels.CHANNEL_3 =
      some ⟨DataTypes.OFF, .WIRES_4, false, 0, 0⟩ ∧
    (∃ r st' ev,
      set_channel (PT104.init 0) 0 Channels.CHANNEL_3 DataTypes.PT1000 .WIRES_3 true =
        .ok (r, st', ev) ∧
      st'.channels = updateChannel (PT104.init 0).channels Channels.CHANNEL_3
        ({ (⟨DataTypes.OFF, .WIRES_4, false, 0, 0⟩ : ChannelConf) with
            data_type := DataTypes.PT1000, nb_wires := .WIRES_3, low_pass_filter := true }) ∧
      lookupChannel st'.channels Channels.CHANNEL_3 =
        some { (⟨DataTypes.OFF, .WIRES_4, false, 0, 0⟩ : ChannelConf) with
            data_type := DataTypes.PT1000, nb_wires := .WIRES_3, low_pass_filter := true } ∧
      st'.handle = (PT104.init 0).handle ∧
      ((r = SetChannelResult.pyFalse) ↔ (PT104.init 0).handle = none) ∧
      ((PT104.init 0).handle = none → ev = []) ∧
      (∀ hh, (PT104.init 0).handle = some hh →
        ev = [Event.hwSetChannel hh Channels.CHANNEL_3 DataTypes.PT1000 .WIRES_3] ∧
          r = SetChannelResult.status 0)) :=
  ⟨rfl, C6_set_channel_roundtrip (PT104.init 0) 0 Channels.CHANNEL_3 DataTypes.PT1000
    .WIRES_3 true ⟨DataTypes.OFF, .WIRES_4, false, 0, 0⟩ rfl⟩

/-! ## C7: `active_channel_count` -/

theorem updateChannel_eq_of_not_mem (ch : Channels) (conf : ChannelConf) :
    ∀ chans : ChannelStore, (∀ q ∈ chans, q.1 ≠ ch) → updateChannel chans ch conf = chans := by
  intro chans
  induction chans with
  | nil => intro _; rfl
  | cons p ps ih =>
    intro hnm
    simp only [updateChannel, List.map_cons]
    rw [if_neg (hnm p (List.mem_cons_self p ps))]
    have htail := ih fun q hq => hnm q (List.mem_cons_of_mem p hq)
    rw [show List.map (fun q => if q.1 = ch then (ch, conf) else q) ps =
      updateChannel ps ch conf from rfl, htail]

theorem set_channel_ok_state (st : PT104) (resp : ℤ) (ch : Channels) (dt : DataTypes)
    (w : Wires) (lpf : Bool) (conf : ChannelConf) (r : SetChannelResult) (st' : PT104)
    (ev : List Event)
    (hlk : lookupChannel st.channels ch = some conf)
    (hok : set_channel st resp ch dt w lpf = .ok (r, st', ev)) :
    st'.channels = updateChannel st.channels ch
      ({ conf with data_type := dt, nb_wires := w, low_pass_filter := lpf }) := by
  cases hh : st.handle with
  | none =>
    rw [set_channel, hlk] at hok
    simp only [hh] at hok
    obtain ⟨-, h2, -⟩ := by simpa using hok
    rw [← h2]
  | some hval =>
    rw [set_channel, hlk] at hok
    simp only [hh] at hok
    obtain ⟨-, h2, -⟩ := by simpa using hok
    rw [← h2]

theorem countP_updateChannel (ch : Channels) (newConf : ChannelConf)
    (p : Channels × ChannelConf → Bool) :
    ∀ (chans : ChannelStore) (conf : ChannelConf),
      (chans.map Prod.fst).Nodup → lookupChannel chans ch = some conf →
      (updateChannel chans ch newConf).countP p + (if p (ch, conf) then 1 else 0) =
        chans.countP p + (if p (ch, newConf) then 1 else 0) := by
  intro chans
  induction chans with
  | nil => intro conf _ hlk; simp [lookupChannel] at hlk
  | cons q qs ih =>
    intro conf hnd hlk
    rw [List.map_cons, List.nodup_cons] at hnd
    by_cases hq : q.1 = ch
    · have hconf : conf = q.2 := by
        rw [lookupChannel] at hlk
        rw [List.find?_cons_of_pos _ (by simpa using hq)] at hlk
        simpa using hlk.symm
      have hnm : ∀ r ∈ qs, r.1 ≠ ch := by
        intro r hr hrch
        apply hnd.1
        rw [hq, ← hrch]
        exact List.mem_map_of_mem Prod.fst hr
      have hqq : q = (ch, conf) := by
        rw [hconf, ← hq]
      rw [updateChannel, List.map_cons, if_pos hq]
      rw [show List.map (fun x => if x.1 = ch then (ch, newConf) else x) qs =
        updateChannel qs ch newConf from rfl]
      rw [updateChannel_eq_of_not_mem ch newConf qs hnm, hqq]
      simp only [List.countP_cons]
      omega
    · have hlk' : lookupChannel qs ch = some conf := by
        rw [lookupChannel] at hlk
        rw [List.find?_cons_of_neg _ (by simpa using hq)] at hlk
        exact hlk
      rw [updateChannel, List.map_cons, if_neg hq]
      rw [show List.map (fun x => if x.1 = ch then (ch, newConf) else x) qs =
        updateChannel qs ch newConf from rfl]
      have hrec := ih conf hnd.2 hlk'
      simp only [List.countP_cons]
      omega

/-- C7: `active_channel_count` is the number of stored channels whose data
type is not `OFF` (recomputed from the store, as a `filter` over it); with
distinct keys, setting one non-`OFF` channel to `OFF` via `set_channel`
decreases the count by exactly 1, and setting an `OFF` channel to a non-`OFF`
type increases it by exactly 1. -/
theorem C7_active_channel_count_toggle (st : PT104) (resp : ℤ) (ch : Channels)
    (conf : ChannelConf) (dt : DataTypes) (w : Wires) (lpf : Bool)
    (hnd : (st.channels.map Prod.fst).Nodup)
    (hlk : lookupChannel st.channels ch = some conf) :
    active_channel_count st =
      (st.channels.filter fun q => decide (q.2.data_type ≠ DataTypes.OFF)).length ∧
    (conf.data_type ≠ DataTypes.OFF →
      ∀ r st' ev, set_channel st resp ch DataTypes.OFF w lpf = .ok (r, st', ev) →
        active_channel_count st' + 1 = active_channel_count st) ∧
    (conf.data_type = DataTypes.OFF → dt ≠ DataTypes.OFF →
      ∀ r st' ev, set_channel st resp ch dt w lpf = .ok (r, st', ev) →
        active_channel_count st' = active_channel_count st + 1) := by
  refine ⟨List.countP_eq_length_filter _ _, ?_, ?_⟩
  · intro hon r st' ev hok
    have hst' := set_channel_ok_state st resp ch DataTypes.OFF w lpf conf r st' ev hlk hok
    have hcnt := countP_updateChannel ch
      ({ conf with data_type := DataTypes.OFF, nb_wires := w, low_pass_filter := lpf })
      (fun q => decide (q.2.data_type ≠ DataTypes.OFF)) st.channels conf hnd hlk
    rw [active_channel_count, active_channel_count, hst']
    simp only [hon, if_true, if_false, decide_eq_true_eq, ne_eq, not_false_iff,
      decide_True, decide_False, Bool.false_eq_true, not_true, ite_true, ite_false] at hcnt
    simp only [ne_eq] at hcnt ⊢
    omega
  · intro hoff hdt r st' ev hok
    have hst' := set_channel_ok_state st resp ch dt w lpf conf r st' ev hlk hok
    have hcnt := countP_updateChannel ch
      ({ conf with data_type := dt, nb_wires := w, low_pass_filter := lpf })
      (fun q => decide (q.2.data_type ≠ DataTypes.OFF)) st.channels conf hnd hlk
    rw [active_channel_count, active_channel_count, hst']
    simp only [hoff, hdt, if_true, if_false, decide_eq_true_eq, ne_eq, not_false_iff,
      decide_True, decide_False, Bool.false_eq_true, not_true, ite_true, ite_false] at hcnt
    simp only [ne_eq] at hcnt ⊢
    omega

/-- C7 witness: on a fresh manager with channel 2 set to PT100 (one active
channel), turning channel 2 `OFF` drops the count to 0 and turning it back on
raises it to 1; the toggle facts are the theorem's at this state. -/
theorem C7_active_channel_count_toggle_witness :
    ((stScaleW.channels.map Prod.fst).Nodup ∧
      lookupChannel stScaleW.channels Channels.CHANNEL_1 = some confPT100W) ∧
    (active_channel_count stScaleW =
      (stScaleW.channels.filter fun q => decide (q.2.data_type ≠ DataTypes.OFF)).length ∧
    (confPT100W.data_type ≠ DataTypes.OFF →
      ∀ r st' ev,
        set_channel stScaleW 0 Channels.CHANNEL_1 DataTypes.OFF .WIRES_4 false =
          .ok (r, st', ev) →
        active_channel_count st' + 1 = active_channel_count stScaleW) ∧
    (confPT100W.data_type = DataTypes.OFF → DataTypes.PT100 ≠ DataTypes.OFF →
      ∀ r st' ev,
        set_channel stScaleW 0 Channels.CHANNEL_1 DataTypes.PT100 .WIRES_4 false =
          .ok (r, st', ev) →
        active_channel_count st' = active_channel_count stScaleW + 1)) :=
  ⟨⟨by decide, rfl⟩,
    C7_active_channel_count_toggle stScaleW 0 Channels.CHANNEL_1 confPT100W
      DataTypes.PT100 .WIRES_4 false (by decide) rfl⟩

/-! ## C8: reconnect closes the old handle first -/

theorem set_channel_ok_shape (st : PT104) (resp : ℤ) (ch : Channels) (dt : DataTypes)
    (w : Wires) (lpf : Bool) (r : SetChannelResult) (st' : PT104) (ev : List Event)
    (hok : set_channel st resp ch dt w lpf = .ok (r, st', ev)) :
    st'.channels.map Prod.fst = st.channels.map Prod.fst ∧ st'.handle = st.handle ∧
    ∀ e ∈ ev, ∃ hh c d ww, e = Event.hwSetChannel hh c d ww := by
  cases hlk : lookupChannel st.channels ch with
  | none =>
    rw [set_channel, hlk] at hok
    exact absurd hok (by simp)
  | some conf =>
    cases hh : st.handle with
    | none =>
      rw [set_channel, hlk] at hok
      simp only [hh] at hok
      obtain ⟨-, h2, h3⟩ := by simpa using hok
      rw [← h2, h3]
      exact ⟨updateChannel_map_fst _ _ _, rfl, by simp⟩
    | some hval =>
      rw [set_channel, hlk] at hok
      simp only [hh] at hok
      obtain ⟨-, h2, h3⟩ := by simpa using hok
      rw [← h2, ← h3]
      refine ⟨updateChannel_map_fst _ _ _, rfl, ?_⟩
      intro e he
      rw [List.mem_singleton] at he
      exact ⟨hval, ch, dt, w, he⟩

theorem set_channels_go_ok (items : List (Channels × ChannelConf)) :
    ∀ (st : PT104) (evs : List Event),
      (∀ p ∈ items, p.1 ∈ st.channels.map Prod.fst) →
      ∃ st' tail, set_channels_go st evs items = .ok (st', evs ++ tail) ∧
        st'.handle = st.handle ∧
        st'.channels.map Prod.fst = st.channels.map Prod.fst ∧
        ∀ e ∈ tail, ∃ hh c d ww, e = Event.hwSetChannel hh c d ww := by
  induction items with
  | nil =>
    intro st evs _
    exact ⟨st, [], by simp [set_channels_go], rfl, rfl, by simp⟩
  | cons p ps ih =>
    intro st evs hkeys
    obtain ⟨conf, hconf⟩ := lookupChannel_isSome_of_mem st.channels p.1
      (hkeys p (List.mem_cons_self p ps))
    have hsc : ∃ r st1 ev1,
        set_channel st 0 p.1 p.2.data_type p.2.nb_wires false = .ok (r, st1, ev1) := by
      rw [set_channel, hconf]
      cases st.handle with
      | none => exact ⟨_, _, _, rfl⟩
      | some hv => exact ⟨_, _, _, rfl⟩
    obtain ⟨r, st1, ev1, hok⟩ := hsc
    have hshape := set_channel_ok_shape st 0 p.1 p.2.data_type p.2.nb_wires false
      r st1 ev1 hok
    obtain ⟨st2, tail2, hgo, hh2, hk2, hall2⟩ := ih st1 (evs ++ ev1) (by
      intro q hq
      rw [hshape.1]
      exact hkeys q (List.mem_cons_of_mem p hq))
    refine ⟨st2, ev1 ++ tail2, ?_, hh2.trans hshape.2.1, hk2.trans hshape.1, ?_⟩
    · have hstep : set_channels_go st evs (p :: ps) =
          set_channels_go st1 (evs ++ ev1) ps := by
        simp only [set_channels_go, hok]
      rw [hstep, hgo, List.append_assoc]
    · intro e he
      rcases List.mem_append.mp he with h1 | h1
      · exact hshape.2.2 e h1
      · exact hall2 e h1

/-- C8: calling `connect` over USB while already connected (handle `h`) with
a successful open (status 0, new handle `hNew`) first issues exactly one
`UsbPt104CloseUnit` for the old handle, then the `UsbPt104OpenUnit`, and the
remaining hardware traffic is only unit-info queries and channel-config
pushes — no further close or open; afterwards exactly the new handle is
open. -/
theorem C8_connect_closes_before_open (st : PT104) (h hNew : ℤ)
    (hconn : st.handle = some h) :
    ∃ st' tail,
      connect st (0, hNew) CommunicationType.CT_USB =
        .ok (ConnectResult.pyTrue, st',
          Event.hwCloseUnit h :: Event.hwOpenUnit :: tail) ∧
      st'.handle = some hNew ∧
      ∀ e ∈ tail, (∃ hh cat, e = Event.hwGetUnitInfo hh cat) ∨
        (∃ hh c d ww, e = Event.hwSetChannel hh c d ww) := by
  obtain ⟨st4, tail2, hgo, hh4, hk4, hall⟩ :=
    set_channels_go_ok st.channels ⟨st.channels, some hNew⟩ []
      (fun p hp => List.mem_map_of_mem Prod.fst hp)
  refine ⟨st4, get_unit_info_events hNew ++ tail2, ?_, by rw [hh4], ?_⟩
  · simp only [connect, hconn, disconnect, set_channels]
    simp only [List.nil_append] at hgo
    simp [hgo, List.append_assoc]
  · intro e he
    rcases List.mem_append.mp he with h1 | h1
    · rw [get_unit_info_events] at h1
      obtain ⟨cat, -, rfl⟩ := List.mem_map.mp h1
      exact Or.inl ⟨hNew, cat, rfl⟩
    · exact Or.inr (hall e h1)

/-- C8 witness: reconnecting a concrete connected manager (old handle 7, new
handle 9). -/
theorem C8_connect_closes_before_open_witness :
    ({ PT104.init 0 with handle := some 7 } : PT104).handle = some 7 ∧
    (∃ st' tail,
      connect { PT104.init 0 with handle := some 7 } (0, 9)
          CommunicationType.CT_USB =
        .ok (ConnectResult.pyTrue, st',
          Event.hwCloseUnit 7 :: Event.hwOpenUnit :: tail) ∧
      st'.handle = some 9 ∧
      ∀ e ∈ tail, (∃ hh cat, e = Event.hwGetUnitInfo hh cat) ∨
        (∃ hh c d ww, e = Event.hwSetChannel hh c d ww)) :=
  ⟨rfl, C8_connect_closes_before_open { PT104.init 0 with handle := some 7 } 7 9 rfl⟩

/-! ## C9: the store holds only channels 1–4 -/

/-- C9: the store built by the constructor holds exactly channels 1–4, each
defaulting to `OFF`, 4-wire, filter off, raw value 0 and `last_query` equal to
the construction time; for each of the catalog's channels 5–8 the dictionary
lookup misses, so `set_channel` and the conversion-timing guard raise
`KeyError`, and so does `get_value` on a connected session (rather than any of
them returning an absent value or a status). -/
theorem C9_channels_5_to_8_missing (t0 now : ℚ) (h resp s out : ℤ) (ch : Channels)
    (dt : DataTypes) (w : Wires) (lpf raw_value : Bool) (times : List ℚ)
    (hch : ch ∈ [Channels.CHANNEL_5, .CHANNEL_6, .CHANNEL_7, .CHANNEL_8]) :
    (PT104.init t0).channels.map Prod.fst =
      [Channels.CHANNEL_1, .CHANNEL_2, .CHANNEL_3, .CHANNEL_4] ∧
    (∀ c ∈ [Channels.CHANNEL_1, .CHANNEL_2, .CHANNEL_3, .CHANNEL_4],
      lookupChannel (PT104.init t0).channels c =
        some ⟨DataTypes.OFF, Wires.WIRES_4, false, 0, t0⟩) ∧
    lookupChannel (PT104.init t0).channels ch = none ∧
    set_channel (PT104.init t0) resp ch dt w lpf = .error .keyError ∧
    wait_for_conversion (PT104.init t0) ch times = .error .keyError ∧
    get_value { PT104.init t0 with handle := some h } (s, out) ch raw_value now =
      .error .keyError := by
  refine ⟨rfl, ?_, ?_, ?_, ?_, ?_⟩
  · intro c hc
    fin_cases hc <;> rfl
  all_goals fin_cases hch
  · rfl
  · rfl
  · rfl
  · rfl
  · rw [set_channel]; rfl
  · rw [set_channel]; rfl
  · rw [set_channel]; rfl
  · rw [set_channel]; rfl
  · rw [wait_for_conversion]; rfl
  · rw [wait_for_conversion]; rfl
  · rw [wait_for_conversion]; rfl
  · rw [wait_for_conversion]; rfl
  · rw [get_value]; rfl
  · rw [get_value]; rfl
  · rw [get_value]; rfl
  · rw [get_value]; rfl

/-- C9 witness: channel 5 at a concrete construction time and inputs. -/
theorem C9_channels_5_to_8_missing_witness :
    Channels.CHANNEL_5 ∈ [Channels.CHANNEL_5, .CHANNEL_6, .CHANNEL_7, .CHANNEL_8] ∧
    ((PT104.init 0).channels.map Prod.fst =
      [Channels.CHANNEL_1, .CHANNEL_2, .CHANNEL_3, .CHANNEL_4] ∧
    (∀ c ∈ [Channels.CHANNEL_1, .CHANNEL_2, .CHANNEL_3, .CHANNEL_4],
      lookupChannel (PT104.init 0).channels c =
        some ⟨DataTypes.OFF, Wires.WIRES_4, false, 0, 0⟩) ∧
    lookupChannel (PT104.init 0).channels .CHANNEL_5 = none ∧
    set_channel (PT104.init 0) 0 .CHANNEL_5 DataTypes.PT100 .WIRES_4 false =
      .error .keyError ∧
    wait_for_conversion (PT104.init 0) .CHANNEL_5 [1] = .error .keyError ∧
    get_value { PT104.init 0 with handle := some 2 } (0, 0) .CHANNEL_5 false 1 =
      .error .keyError) :=
  ⟨by decide,
    C9_channels_5_to_8_missing 0 1 2 0 0 0 .CHANNEL_5 DataTypes.PT100 .WIRES_4
      false false [1] (by decide)⟩
